import Mathlib

/-!
# The dotnet binding sample launcher (`binding/main.c`)

A shallow embedding of `main` from `binding/main.c`.  The program is a straight
line of calls into the platform (`LoadLibrary`, `GetProcAddress`,
`GetLastError`, `FreeLibrary`), into the C library (`printf`, `getchar`) and
into the two entry points of the loaded library.  `main` is modelled as a pure
function of its arguments, of the answers the environment gives to those calls,
and of the content of standard input; it returns the exit status, the ordered
trace of the calls it made, and what is left of standard input.

Pointers (`HINSTANCE`, `FARPROC`, `void*`) are natural numbers, `0` being the
null pointer; the tests `!p` of the source are `p = 0`.
-/

namespace Binding

/-- One call made by `main`, with the arguments it was made with.  `printf`
carries the text that reaches standard output. -/
inductive Event where
  | printf (text : String)
  | LoadLibrary (name : String)
  | GetLastError
  | GetProcAddress (hDLL : Nat) (name : String)
  | Gateway_CreateFromJson (fn : Nat) (arg : String)
  | getchar
  | Gateway_Destroy (fn : Nat) (arg : Nat)
  | FreeLibrary (hDLL : Nat)
  deriving DecidableEq, Repr

/-- The answers of the environment to the calls `main` makes.
`LoadLibrary name` is the module handle (`0` when loading fails),
`GetLastError` the `DWORD` error code of the calling thread,
`GetProcAddress hDLL name` the address of the symbol (`0` when it does not
resolve) and `invoke fn arg` the pointer returned by the function at address
`fn` when it is called with the string `arg` (`0` for a null result). -/
structure Env where
  LoadLibrary : String → Nat
  GetLastError : Nat
  GetProcAddress : Nat → String → Nat
  invoke : Nat → String → Nat

/-- What a run of `main` leaves behind: the exit status, the calls made in the
order they were made, and the unread rest of standard input. -/
structure Result where
  status : Int
  trace : List Event
  stdin : List Char
  deriving DecidableEq, Repr

/-- The conversion `%d` of `printf` applied to a `DWORD`: the low 32 bits of the
value read as a signed `int`, in decimal. -/
def fmtD (v : Nat) : String :=
  if v % 2 ^ 32 < 2 ^ 31 then toString (v % 2 ^ 32)
  else "-" ++ toString (2 ^ 32 - v % 2 ^ 32)

/-- The C library call `getchar()`: the next character of standard input and the
rest of the stream, or `EOF` (`-1`) with the stream unchanged at end of input. -/
def getchar : List Char → Int × List Char
  | [] => (-1, [])
  | c :: rest => (c.toNat, rest)

/-- The function `main` of `binding/main.c`.  `argv[1]` is read only when
`argc = 2`, where the C runtime guarantees it exists; `List.getD` makes the
read total on lists that are shorter than `argc` says.  The source declares
`Gateway_Destroy` with the pointer type of the creation function; the call
passes `pGateway` and ignores what comes back, which is what the trace
records.  The result of `getchar` is ignored as well. -/
def main (argc : Int) (argv : List String) (env : Env) (stdin : List Char) : Result :=
  if argc ≠ 2 then
    { status := 1
      trace := [.printf "usage: dotnet_binding_sample configFile\n",
                .printf "where configFile is the name of the file that contains the Gateway configuration\n"]
      stdin := stdin }
  else
    let hDLL := env.LoadLibrary "gateway.dll"
    if hDLL = 0 then
      { status := 1
        trace := [.LoadLibrary "gateway.dll",
                  .GetLastError,
                  .printf ("failed to load gateway.dll, error: " ++ fmtD env.GetLastError ++ "\n")]
        stdin := stdin }
    else
      let Gateway_CreateFromJson := env.GetProcAddress hDLL "Gateway_CreateFromJson"
      if Gateway_CreateFromJson = 0 then
        { status := 1
          trace := [.LoadLibrary "gateway.dll",
                    .GetProcAddress hDLL "Gateway_CreateFromJson",
                    .GetLastError,
                    .printf ("failed to load function Gateway_CreateFromJson, error: "
                              ++ fmtD env.GetLastError ++ "\n")]
          stdin := stdin }
      else
        let pGateway := env.invoke Gateway_CreateFromJson (argv.getD 1 "")
        if pGateway = 0 then
          { status := 1
            trace := [.LoadLibrary "gateway.dll",
                      .GetProcAddress hDLL "Gateway_CreateFromJson",
                      .Gateway_CreateFromJson Gateway_CreateFromJson (argv.getD 1 ""),
                      .printf "failed to create the gateway from JSON\n"]
            stdin := stdin }
        else
          let rest := (getchar stdin).2
          let Gateway_Destroy := env.GetProcAddress hDLL "Gateway_Destroy"
          { status := 0
            trace := [.LoadLibrary "gateway.dll",
                      .GetProcAddress hDLL "Gateway_CreateFromJson",
                      .Gateway_CreateFromJson Gateway_CreateFromJson (argv.getD 1 ""),
                      .printf "gateway successfully created from JSON\n",
                      .printf "gateway will run until ENTER is pressed\n",
                      .getchar,
                      .GetProcAddress hDLL "Gateway_Destroy"]
                     ++ (if Gateway_Destroy ≠ 0 then [.Gateway_Destroy Gateway_Destroy pGateway] else [])
                     ++ [.FreeLibrary hDLL]
            stdin := rest }

/-- A stub environment: `gateway.dll` loads at `load`, the creation symbol
resolves to `create`, the destroy symbol to `destroy`, the creation function
returns `handle`, and `GetLastError` answers `err`. -/
def stubEnv (load create destroy handle err : Nat) : Env where
  LoadLibrary := fun name => if name = "gateway.dll" then load else 0
  GetLastError := err
  GetProcAddress := fun h name =>
    if h = load ∧ name = "Gateway_CreateFromJson" then create
    else if h = load ∧ name = "Gateway_Destroy" then destroy
    else 0
  invoke := fun fn _ => if fn = create then handle else 0

/-- The calls of the creation entry point. -/
def Event.isCreate : Event → Bool
  | .Gateway_CreateFromJson _ _ => true
  | _ => false

/-- The calls of the destroy entry point. -/
def Event.isDestroy : Event → Bool
  | .Gateway_Destroy _ _ => true
  | _ => false

/-- The calls of `FreeLibrary`. -/
def Event.isFreeLibrary : Event → Bool
  | .FreeLibrary _ => true
  | _ => false

/-- The lines written to standard output by a trace, in order. -/
def printed : List Event → List String
  | [] => []
  | .printf text :: t => text :: printed t
  | _ :: t => printed t

/-- The line feed character. -/
def newline : Char := Char.ofNat 10

/-- Following the specification's words ("any single line is treated as the
shutdown trigger"): what is left of standard input once one whole line,
everything up to and including the first newline, has been consumed. -/
def dropLine : List Char → List Char
  | [] => []
  | c :: rest => if c = newline then rest else dropLine rest

end Binding

namespace Binding

/-! ## The value of `main` on each of its six paths -/

lemma main_usage (argc : Int) (argv : List String) (env : Env) (stdin : List Char)
    (hargc : argc ≠ 2) :
    main argc argv env stdin =
      { status := 1
        trace := [.printf "usage: dotnet_binding_sample configFile\n",
                  .printf "where configFile is the name of the file that contains the Gateway configuration\n"]
        stdin := stdin } := by
  simp [main, hargc]

lemma main_load_failed (argv : List String) (env : Env) (stdin : List Char)
    (hload : env.LoadLibrary "gateway.dll" = 0) :
    main 2 argv env stdin =
      { status := 1
        trace := [.LoadLibrary "gateway.dll", .GetLastError,
                  .printf ("failed to load gateway.dll, error: " ++ fmtD env.GetLastError ++ "\n")]
        stdin := stdin } := by
  simp [main, hload]

lemma main_resolve_failed (argv : List String) (env : Env) (stdin : List Char)
    (hload : env.LoadLibrary "gateway.dll" ≠ 0)
    (hsym : env.GetProcAddress (env.LoadLibrary "gateway.dll") "Gateway_CreateFromJson" = 0) :
    main 2 argv env stdin =
      { status := 1
        trace := [.LoadLibrary "gateway.dll",
                  .GetProcAddress (env.LoadLibrary "gateway.dll") "Gateway_CreateFromJson",
                  .GetLastError,
                  .printf ("failed to load function Gateway_CreateFromJson, error: "
                            ++ fmtD env.GetLastError ++ "\n")]
        stdin := stdin } := by
  simp [main, hload, hsym]

lemma main_create_failed (argv : List String) (env : Env) (stdin : List Char)
    (hload : env.LoadLibrary "gateway.dll" ≠ 0)
    (hsym : env.GetProcAddress (env.LoadLibrary "gateway.dll") "Gateway_CreateFromJson" ≠ 0)
    (hnull : env.invoke (env.GetProcAddress (env.LoadLibrary "gateway.dll") "Gateway_CreateFromJson")
              (argv.getD 1 "") = 0) :
    main 2 argv env stdin =
      { status := 1
        trace := [.LoadLibrary "gateway.dll",
                  .GetProcAddress (env.LoadLibrary "gateway.dll") "Gateway_CreateFromJson",
                  .Gateway_CreateFromJson
                    (env.GetProcAddress (env.LoadLibrary "gateway.dll") "Gateway_CreateFromJson")
                    (argv.getD 1 ""),
                  .printf "failed to create the gateway from JSON\n"]
        stdin := stdin } := by
  simp_all [main]

lemma main_created_destroy (argv : List String) (env : Env) (stdin : List Char)
    (hload : env.LoadLibrary "gateway.dll" ≠ 0)
    (hsym : env.GetProcAddress (env.LoadLibrary "gateway.dll") "Gateway_CreateFromJson" ≠ 0)
    (hcreated : env.invoke (env.GetProcAddress (env.LoadLibrary "gateway.dll") "Gateway_CreateFromJson")
              (argv.getD 1 "") ≠ 0)
    (hdestroy : env.GetProcAddress (env.LoadLibrary "gateway.dll") "Gateway_Destroy" ≠ 0) :
    main 2 argv env stdin =
      { status := 0
        trace := [.LoadLibrary "gateway.dll",
                  .GetProcAddress (env.LoadLibrary "gateway.dll") "Gateway_CreateFromJson",
                  .Gateway_CreateFromJson
                    (env.GetProcAddress (env.LoadLibrary "gateway.dll") "Gateway_CreateFromJson")
                    (argv.getD 1 ""),
                  .printf "gateway successfully created from JSON\n",
                  .printf "gateway will run until ENTER is pressed\n",
                  .getchar,
                  .GetProcAddress (env.LoadLibrary "gateway.dll") "Gateway_Destroy",
                  .Gateway_Destroy
                    (env.GetProcAddress (env.LoadLibrary "gateway.dll") "Gateway_Destroy")
                    (env.invoke
                      (env.GetProcAddress (env.LoadLibrary "gateway.dll") "Gateway_CreateFromJson")
                      (argv.getD 1 "")),
                  .FreeLibrary (env.LoadLibrary "gateway.dll")]
        stdin := (getchar stdin).2 } := by
  simp_all [main]

lemma main_created_no_destroy (argv : List String) (env : Env) (stdin : List Char)
    (hload : env.LoadLibrary "gateway.dll" ≠ 0)
    (hsym : env.GetProcAddress (env.LoadLibrary "gateway.dll") "Gateway_CreateFromJson" ≠ 0)
    (hcreated : env.invoke (env.GetProcAddress (env.LoadLibrary "gateway.dll") "Gateway_CreateFromJson")
              (argv.getD 1 "") ≠ 0)
    (hdestroy : env.GetProcAddress (env.LoadLibrary "gateway.dll") "Gateway_Destroy" = 0) :
    main 2 argv env stdin =
      { status := 0
        trace := [.LoadLibrary "gateway.dll",
                  .GetProcAddress (env.LoadLibrary "gateway.dll") "Gateway_CreateFromJson",
                  .Gateway_CreateFromJson
                    (env.GetProcAddress (env.LoadLibrary "gateway.dll") "Gateway_CreateFromJson")
                    (argv.getD 1 ""),
                  .printf "gateway successfully created from JSON\n",
                  .printf "gateway will run until ENTER is pressed\n",
                  .getchar,
                  .GetProcAddress (env.LoadLibrary "gateway.dll") "Gateway_Destroy",
                  .FreeLibrary (env.LoadLibrary "gateway.dll")]
        stdin := (getchar stdin).2 } := by
  simp_all [main]

/-- What `getchar` leaves of the stream: everything but its first character. -/
lemma getchar_rest (stdin : List Char) : (getchar stdin).2 = stdin.tail := by
  cases stdin <;> rfl

/-- On every error code below `2 ^ 31`, which covers all system error codes,
`%d` prints the code itself. -/
lemma fmtD_of_lt (v : Nat) (hv : v < 2 ^ 31) : fmtD v = toString v := by
  have h1 : v % 2 ^ 32 = v := Nat.mod_eq_of_lt (by omega)
  unfold fmtD
  rw [h1, if_pos hv]

/-- The status of `main` depends on the environment only through the four
conditions of the success path. -/
lemma main_status (argc : Int) (argv : List String) (env : Env) (stdin : List Char) :
    (main argc argv env stdin).status =
      if argc = 2 ∧ env.LoadLibrary "gateway.dll" ≠ 0
          ∧ env.GetProcAddress (env.LoadLibrary "gateway.dll") "Gateway_CreateFromJson" ≠ 0
          ∧ env.invoke (env.GetProcAddress (env.LoadLibrary "gateway.dll") "Gateway_CreateFromJson")
              (argv.getD 1 "") ≠ 0
      then 0 else 1 := by
  by_cases hargc : argc = 2
  · by_cases hload : env.LoadLibrary "gateway.dll" = 0
    · simp [main, hargc, hload]
    · by_cases hsym :
          env.GetProcAddress (env.LoadLibrary "gateway.dll") "Gateway_CreateFromJson" = 0
      · simp [main, hargc, hload, hsym]
      · by_cases hnull :
            env.invoke (env.GetProcAddress (env.LoadLibrary "gateway.dll") "Gateway_CreateFromJson")
              (argv.getD 1 "") = 0
        · simp_all [main]
        · simp_all [main]
  · simp [main, hargc]

/-! ## Exit status -/

/-- C1: the exit status of `main` is 0 exactly when `argc = 2`, `gateway.dll`
loads, `Gateway_CreateFromJson` resolves and the creation call returns a
non-null handle; in every other case it is 1; and two environments that differ
only in what `GetProcAddress` answers for `Gateway_Destroy` (and in the error
code and standard input) give the same status. -/
theorem main_exit_status (argc : Int) (argv : List String) (env : Env) (stdin : List Char) :
    ((main argc argv env stdin).status = 0 ↔
        (argc = 2 ∧ env.LoadLibrary "gateway.dll" ≠ 0
          ∧ env.GetProcAddress (env.LoadLibrary "gateway.dll") "Gateway_CreateFromJson" ≠ 0
          ∧ env.invoke (env.GetProcAddress (env.LoadLibrary "gateway.dll") "Gateway_CreateFromJson")
              (argv.getD 1 "") ≠ 0))
    ∧ (¬ (argc = 2 ∧ env.LoadLibrary "gateway.dll" ≠ 0
          ∧ env.GetProcAddress (env.LoadLibrary "gateway.dll") "Gateway_CreateFromJson" ≠ 0
          ∧ env.invoke (env.GetProcAddress (env.LoadLibrary "gateway.dll") "Gateway_CreateFromJson")
              (argv.getD 1 "") ≠ 0) →
        (main argc argv env stdin).status = 1)
    ∧ (∀ (env2 : Env) (stdin2 : List Char),
        env2.LoadLibrary = env.LoadLibrary → env2.invoke = env.invoke →
        (∀ h name, name ≠ "Gateway_Destroy" →
          env2.GetProcAddress h name = env.GetProcAddress h name) →
        (main argc argv env2 stdin2).status = (main argc argv env stdin).status) := by
  refine ⟨?_, ?_, ?_⟩
  · rw [main_status]
    constructor
    · intro h
      by_contra hc
      rw [if_neg hc] at h
      exact absurd h (by decide)
    · intro h
      rw [if_pos h]
  · intro h
    rw [main_status, if_neg h]
  · intro env2 stdin2 hl hi hg
    rw [main_status, main_status, hl, hi, hg _ _ (by decide)]

/-- C1, on a stub library that loads, resolves and creates: the status is 0. -/
theorem main_exit_status_witness :
    (main 2 ["dotnet_binding_sample", "gw.json"] (stubEnv 7 11 0 42 0) []).status = 0 :=
  (main_exit_status 2 ["dotnet_binding_sample", "gw.json"] (stubEnv 7 11 0 42 0) []).1.mpr
    ⟨rfl, by decide, by decide, by decide⟩

/-! ## The usage path -/

/-- C2: for every `argc` other than 2, `main` prints the two usage lines and
nothing else, returns 1, leaves standard input untouched, and its trace holds no
`LoadLibrary`, `GetProcAddress`, creation call, `getchar`, destroy call or
`FreeLibrary`. -/
theorem main_usage_only (argc : Int) (argv : List String) (env : Env) (stdin : List Char)
    (hargc : argc ≠ 2) :
    (main argc argv env stdin).trace =
        [.printf "usage: dotnet_binding_sample configFile\n",
         .printf "where configFile is the name of the file that contains the Gateway configuration\n"]
    ∧ (main argc argv env stdin).status = 1
    ∧ (main argc argv env stdin).stdin = stdin
    ∧ (∀ name, Event.LoadLibrary name ∉ (main argc argv env stdin).trace)
    ∧ (∀ h name, Event.GetProcAddress h name ∉ (main argc argv env stdin).trace)
    ∧ (∀ fn arg, Event.Gateway_CreateFromJson fn arg ∉ (main argc argv env stdin).trace)
    ∧ Event.getchar ∉ (main argc argv env stdin).trace
    ∧ (∀ fn arg, Event.Gateway_Destroy fn arg ∉ (main argc argv env stdin).trace)
    ∧ (∀ h, Event.FreeLibrary h ∉ (main argc argv env stdin).trace) := by
  rw [main_usage argc argv env stdin hargc]
  simp

/-- C2, with no argument (`argc = 1`) and a library that would load. -/
theorem main_usage_only_witness :
    (main 1 ["dotnet_binding_sample"] (stubEnv 7 11 13 42 0) ['x']).status = 1
    ∧ (∀ name, Event.LoadLibrary name ∉
        (main 1 ["dotnet_binding_sample"] (stubEnv 7 11 13 42 0) ['x']).trace) :=
  ⟨(main_usage_only 1 ["dotnet_binding_sample"] (stubEnv 7 11 13 42 0) ['x'] (by decide)).2.1,
   (main_usage_only 1 ["dotnet_binding_sample"] (stubEnv 7 11 13 42 0) ['x'] (by decide)).2.2.2.1⟩

/-! ## The success path -/

/-- C3: with `argc = 2`, the library loaded, the creation symbol resolved and a
non-null handle returned, the trace of `main` is, in this order: the load, the
resolution of the creation symbol, the creation call, the two lines of the
success message, one `getchar`, the resolution of `Gateway_Destroy`, the destroy
call when that symbol resolves and no destroy call when it does not, and
`FreeLibrary`; the status is 0. -/
theorem main_success_trace (argc : Int) (argv : List String) (env : Env) (stdin : List Char)
    (hargc : argc = 2)
    (hload : env.LoadLibrary "gateway.dll" ≠ 0)
    (hsym : env.GetProcAddress (env.LoadLibrary "gateway.dll") "Gateway_CreateFromJson" ≠ 0)
    (hcreated : env.invoke (env.GetProcAddress (env.LoadLibrary "gateway.dll") "Gateway_CreateFromJson")
              (argv.getD 1 "") ≠ 0) :
    (env.GetProcAddress (env.LoadLibrary "gateway.dll") "Gateway_Destroy" ≠ 0 →
      (main argc argv env stdin).trace =
        [.LoadLibrary "gateway.dll",
         .GetProcAddress (env.LoadLibrary "gateway.dll") "Gateway_CreateFromJson",
         .Gateway_CreateFromJson
            (env.GetProcAddress (env.LoadLibrary "gateway.dll") "Gateway_CreateFromJson")
            (argv.getD 1 ""),
         .printf "gateway successfully created from JSON\n",
         .printf "gateway will run until ENTER is pressed\n",
         .getchar,
         .GetProcAddress (env.LoadLibrary "gateway.dll") "Gateway_Destroy",
         .Gateway_Destroy
            (env.GetProcAddress (env.LoadLibrary "gateway.dll") "Gateway_Destroy")
            (env.invoke
              (env.GetProcAddress (env.LoadLibrary "gateway.dll") "Gateway_CreateFromJson")
              (argv.getD 1 "")),
         .FreeLibrary (env.LoadLibrary "gateway.dll")])
    ∧ (env.GetProcAddress (env.LoadLibrary "gateway.dll") "Gateway_Destroy" = 0 →
      (main argc argv env stdin).trace =
        [.LoadLibrary "gateway.dll",
         .GetProcAddress (env.LoadLibrary "gateway.dll") "Gateway_CreateFromJson",
         .Gateway_CreateFromJson
            (env.GetProcAddress (env.LoadLibrary "gateway.dll") "Gateway_CreateFromJson")
            (argv.getD 1 ""),
         .printf "gateway successfully created from JSON\n",
         .printf "gateway will run until ENTER is pressed\n",
         .getchar,
         .GetProcAddress (env.LoadLibrary "gateway.dll") "Gateway_Destroy",
         .FreeLibrary (env.LoadLibrary "gateway.dll")])
    ∧ ((∃ fn arg, Event.Gateway_Destroy fn arg ∈ (main argc argv env stdin).trace) ↔
        env.GetProcAddress (env.LoadLibrary "gateway.dll") "Gateway_Destroy" ≠ 0)
    ∧ (main argc argv env stdin).status = 0 := by
  subst hargc
  by_cases hdestroy : env.GetProcAddress (env.LoadLibrary "gateway.dll") "Gateway_Destroy" = 0
  · rw [main_created_no_destroy argv env stdin hload hsym hcreated hdestroy]
    simp [hdestroy]
  · rw [main_created_destroy argv env stdin hload hsym hcreated hdestroy]
    simp [hdestroy]

/-- C3, on a stub library with both entry points. -/
theorem main_success_trace_witness :
    (main 2 ["dotnet_binding_sample", "gw.json"] (stubEnv 7 11 13 42 0) ['q', Char.ofNat 10]).trace =
      [.LoadLibrary "gateway.dll",
       .GetProcAddress 7 "Gateway_CreateFromJson",
       .Gateway_CreateFromJson 11 "gw.json",
       .printf "gateway successfully created from JSON\n",
       .printf "gateway will run until ENTER is pressed\n",
       .getchar,
       .GetProcAddress 7 "Gateway_Destroy",
       .Gateway_Destroy 13 42,
       .FreeLibrary 7] :=
  (main_success_trace 2 ["dotnet_binding_sample", "gw.json"] (stubEnv 7 11 13 42 0)
    ['q', Char.ofNat 10] rfl (by decide) (by decide) (by decide)).1 (by decide)

/-- C7: when creation succeeds and `Gateway_Destroy` does not resolve, `main`
makes no destroy call, prints nothing after the two lines of the success
message, calls `FreeLibrary` and returns 0; a run that differs only in that the
destroy symbol resolves prints the same lines and returns the same status. -/
theorem main_missing_destroy (argc : Int) (argv : List String) (env : Env) (stdin : List Char)
    (hargc : argc = 2)
    (hload : env.LoadLibrary "gateway.dll" ≠ 0)
    (hsym : env.GetProcAddress (env.LoadLibrary "gateway.dll") "Gateway_CreateFromJson" ≠ 0)
    (hcreated : env.invoke (env.GetProcAddress (env.LoadLibrary "gateway.dll") "Gateway_CreateFromJson")
              (argv.getD 1 "") ≠ 0)
    (hdestroy : env.GetProcAddress (env.LoadLibrary "gateway.dll") "Gateway_Destroy" = 0) :
    (main argc argv env stdin).trace =
        [.LoadLibrary "gateway.dll",
         .GetProcAddress (env.LoadLibrary "gateway.dll") "Gateway_CreateFromJson",
         .Gateway_CreateFromJson
            (env.GetProcAddress (env.LoadLibrary "gateway.dll") "Gateway_CreateFromJson")
            (argv.getD 1 ""),
         .printf "gateway successfully created from JSON\n",
         .printf "gateway will run until ENTER is pressed\n",
         .getchar,
         .GetProcAddress (env.LoadLibrary "gateway.dll") "Gateway_Destroy",
         .FreeLibrary (env.LoadLibrary "gateway.dll")]
    ∧ (∀ fn arg, Event.Gateway_Destroy fn arg ∉ (main argc argv env stdin).trace)
    ∧ printed (main argc argv env stdin).trace =
        ["gateway successfully created from JSON\n", "gateway will run until ENTER is pressed\n"]
    ∧ (main argc argv env stdin).status = 0
    ∧ (∀ env2 : Env,
        env2.LoadLibrary = env.LoadLibrary → env2.invoke = env.invoke →
        (∀ h name, name ≠ "Gateway_Destroy" →
          env2.GetProcAddress h name = env.GetProcAddress h name) →
        env2.GetProcAddress (env.LoadLibrary "gateway.dll") "Gateway_Destroy" ≠ 0 →
        (∃ fn arg, Event.Gateway_Destroy fn arg ∈ (main argc argv env2 stdin).trace)
        ∧ printed (main argc argv env2 stdin).trace = printed (main argc argv env stdin).trace
        ∧ (main argc argv env2 stdin).status = (main argc argv env stdin).status) := by
  subst hargc
  rw [main_created_no_destroy argv env stdin hload hsym hcreated hdestroy]
  refine ⟨rfl, by simp, by simp [printed], rfl, ?_⟩
  intro env2 hl hi hg hd
  have hload2 : env2.LoadLibrary "gateway.dll" ≠ 0 := by rw [hl]; exact hload
  have hsym2 :
      env2.GetProcAddress (env2.LoadLibrary "gateway.dll") "Gateway_CreateFromJson" ≠ 0 := by
    rw [hl, hg _ _ (by decide)]; exact hsym
  have hcreated2 :
      env2.invoke (env2.GetProcAddress (env2.LoadLibrary "gateway.dll") "Gateway_CreateFromJson")
        (argv.getD 1 "") ≠ 0 := by
    rw [hl, hi, hg _ _ (by decide)]; exact hcreated
  have hdestroy2 : env2.GetProcAddress (env2.LoadLibrary "gateway.dll") "Gateway_Destroy" ≠ 0 := by
    rw [hl]; exact hd
  rw [main_created_destroy argv env2 stdin hload2 hsym2 hcreated2 hdestroy2]
  refine ⟨?_, by simp [printed], rfl⟩
  simp

/-- C7, on a stub library that exports no destroy function. -/
theorem main_missing_destroy_witness :
    (main 2 ["dotnet_binding_sample", "gw.json"] (stubEnv 7 11 0 42 0) ['q']).status = 0
    ∧ printed (main 2 ["dotnet_binding_sample", "gw.json"] (stubEnv 7 11 0 42 0) ['q']).trace =
        ["gateway successfully created from JSON\n", "gateway will run until ENTER is pressed\n"] :=
  ⟨(main_missing_destroy 2 ["dotnet_binding_sample", "gw.json"] (stubEnv 7 11 0 42 0) ['q']
      rfl (by decide) (by decide) (by decide) (by decide)).2.2.2.1,
   (main_missing_destroy 2 ["dotnet_binding_sample", "gw.json"] (stubEnv 7 11 0 42 0) ['q']
      rfl (by decide) (by decide) (by decide) (by decide)).2.2.1⟩

/-! ## The failure paths -/

/-- C4: with `argc = 2`, the library loaded, the creation symbol resolved and a
null result of the creation call, `main` prints the creation-failure line and
returns 1; it does not call `getchar` (standard input is untouched), does not
print the success message and does not call the destroy entry point. -/
theorem main_creation_failure (argc : Int) (argv : List String) (env : Env) (stdin : List Char)
    (hargc : argc = 2)
    (hload : env.LoadLibrary "gateway.dll" ≠ 0)
    (hsym : env.GetProcAddress (env.LoadLibrary "gateway.dll") "Gateway_CreateFromJson" ≠ 0)
    (hnull : env.invoke (env.GetProcAddress (env.LoadLibrary "gateway.dll") "Gateway_CreateFromJson")
              (argv.getD 1 "") = 0) :
    (main argc argv env stdin).trace =
        [.LoadLibrary "gateway.dll",
         .GetProcAddress (env.LoadLibrary "gateway.dll") "Gateway_CreateFromJson",
         .Gateway_CreateFromJson
            (env.GetProcAddress (env.LoadLibrary "gateway.dll") "Gateway_CreateFromJson")
            (argv.getD 1 ""),
         .printf "failed to create the gateway from JSON\n"]
    ∧ printed (main argc argv env stdin).trace = ["failed to create the gateway from JSON\n"]
    ∧ (main argc argv env stdin).status = 1
    ∧ Event.getchar ∉ (main argc argv env stdin).trace
    ∧ (main argc argv env stdin).stdin = stdin
    ∧ Event.printf "gateway successfully created from JSON\n" ∉ (main argc argv env stdin).trace
    ∧ Event.printf "gateway will run until ENTER is pressed\n" ∉ (main argc argv env stdin).trace
    ∧ (∀ fn arg, Event.Gateway_Destroy fn arg ∉ (main argc argv env stdin).trace) := by
  subst hargc
  rw [main_create_failed argv env stdin hload hsym hnull]
  simp [printed]

/-- C4, on a stub library whose creation function returns null. -/
theorem main_creation_failure_witness :
    (main 2 ["dotnet_binding_sample", "gw.json"] (stubEnv 7 11 13 0 0) ['q']).status = 1
    ∧ (main 2 ["dotnet_binding_sample", "gw.json"] (stubEnv 7 11 13 0 0) ['q']).stdin = ['q'] :=
  ⟨(main_creation_failure 2 ["dotnet_binding_sample", "gw.json"] (stubEnv 7 11 13 0 0) ['q']
      rfl (by decide) (by decide) (by decide)).2.2.1,
   (main_creation_failure 2 ["dotnet_binding_sample", "gw.json"] (stubEnv 7 11 13 0 0) ['q']
      rfl (by decide) (by decide) (by decide)).2.2.2.2.1⟩

/-- C5: with `argc = 2` and a failed load of `gateway.dll`, `main` prints one
line, the load-failure message carrying the `GetLastError` code as `%d` renders
it (the code itself whenever it is below `2 ^ 31`), and returns 1; it resolves
no symbol, makes no creation call and does not read standard input. -/
theorem main_load_failure (argc : Int) (argv : List String) (env : Env) (stdin : List Char)
    (hargc : argc = 2)
    (hload : env.LoadLibrary "gateway.dll" = 0) :
    (main argc argv env stdin).trace =
        [.LoadLibrary "gateway.dll", .GetLastError,
         .printf ("failed to load gateway.dll, error: " ++ fmtD env.GetLastError ++ "\n")]
    ∧ printed (main argc argv env stdin).trace =
        ["failed to load gateway.dll, error: " ++ fmtD env.GetLastError ++ "\n"]
    ∧ (env.GetLastError < 2 ^ 31 →
        printed (main argc argv env stdin).trace =
          ["failed to load gateway.dll, error: " ++ toString env.GetLastError ++ "\n"])
    ∧ (main argc argv env stdin).status = 1
    ∧ (∀ h name, Event.GetProcAddress h name ∉ (main argc argv env stdin).trace)
    ∧ (∀ fn arg, Event.Gateway_CreateFromJson fn arg ∉ (main argc argv env stdin).trace)
    ∧ Event.getchar ∉ (main argc argv env stdin).trace
    ∧ (main argc argv env stdin).stdin = stdin := by
  subst hargc
  rw [main_load_failed argv env stdin hload]
  refine ⟨rfl, by simp [printed], ?_, rfl, by simp, by simp, by simp, rfl⟩
  intro hlt
  simp [printed, fmtD_of_lt _ hlt]

/-- C5, with the library absent and the error code 126 of a module that was
not found. -/
theorem main_load_failure_witness :
    printed (main 2 ["dotnet_binding_sample", "gw.json"] (stubEnv 0 0 0 0 126) ['q']).trace =
        ["failed to load gateway.dll, error: 126\n"]
    ∧ (main 2 ["dotnet_binding_sample", "gw.json"] (stubEnv 0 0 0 0 126) ['q']).status = 1 :=
  ⟨(main_load_failure 2 ["dotnet_binding_sample", "gw.json"] (stubEnv 0 0 0 0 126) ['q']
      rfl (by decide)).2.1,
   (main_load_failure 2 ["dotnet_binding_sample", "gw.json"] (stubEnv 0 0 0 0 126) ['q']
      rfl (by decide)).2.2.2.1⟩

/-- C6: with `argc = 2`, the library loaded and `Gateway_CreateFromJson`
unresolved, `main` prints one line, the resolution-failure message carrying the
`GetLastError` code as `%d` renders it (the code itself whenever it is below
`2 ^ 31`), and returns 1; it makes no creation call, does not read standard
input and never asks for the `Gateway_Destroy` symbol. -/
theorem main_resolution_failure (argc : Int) (argv : List String) (env : Env)
    (stdin : List Char)
    (hargc : argc = 2)
    (hload : env.LoadLibrary "gateway.dll" ≠ 0)
    (hsym : env.GetProcAddress (env.LoadLibrary "gateway.dll") "Gateway_CreateFromJson" = 0) :
    (main argc argv env stdin).trace =
        [.LoadLibrary "gateway.dll",
         .GetProcAddress (env.LoadLibrary "gateway.dll") "Gateway_CreateFromJson",
         .GetLastError,
         .printf ("failed to load function Gateway_CreateFromJson, error: "
                    ++ fmtD env.GetLastError ++ "\n")]
    ∧ printed (main argc argv env stdin).trace =
        ["failed to load function Gateway_CreateFromJson, error: "
          ++ fmtD env.GetLastError ++ "\n"]
    ∧ (env.GetLastError < 2 ^ 31 →
        printed (main argc argv env stdin).trace =
          ["failed to load function Gateway_CreateFromJson, error: "
            ++ toString env.GetLastError ++ "\n"])
    ∧ (main argc argv env stdin).status = 1
    ∧ (∀ fn arg, Event.Gateway_CreateFromJson fn arg ∉ (main argc argv env stdin).trace)
    ∧ Event.getchar ∉ (main argc argv env stdin).trace
    ∧ (main argc argv env stdin).stdin = stdin
    ∧ (∀ h, Event.GetProcAddress h "Gateway_Destroy" ∉ (main argc argv env stdin).trace)
    ∧ (∀ fn arg, Event.Gateway_Destroy fn arg ∉ (main argc argv env stdin).trace) := by
  subst hargc
  rw [main_resolve_failed argv env stdin hload hsym]
  refine ⟨rfl, by simp [printed], ?_, rfl, by simp, by simp, rfl, by simp, by simp⟩
  intro hlt
  simp [printed, fmtD_of_lt _ hlt]

/-- C6, on a stub library that lacks the creation symbol, with the error code
127 of a procedure that was not found. -/
theorem main_resolution_failure_witness :
    printed (main 2 ["dotnet_binding_sample", "gw.json"] (stubEnv 7 0 13 42 127) ['q']).trace =
        ["failed to load function Gateway_CreateFromJson, error: 127\n"]
    ∧ (main 2 ["dotnet_binding_sample", "gw.json"] (stubEnv 7 0 13 42 127) ['q']).status = 1 :=
  ⟨(main_resolution_failure 2 ["dotnet_binding_sample", "gw.json"] (stubEnv 7 0 13 42 127) ['q']
      rfl (by decide) (by decide)).2.1,
   (main_resolution_failure 2 ["dotnet_binding_sample", "gw.json"] (stubEnv 7 0 13 42 127) ['q']
      rfl (by decide) (by decide)).2.2.2.1⟩

/-! ## The two forwarded values -/

/-- C8: in every run, a call of the creation entry point is made through the
address `GetProcAddress` gave for `Gateway_CreateFromJson` and with `argv[1]`
as its argument; a call of the destroy entry point is made through the address
given for `Gateway_Destroy` and with the non-null value the creation call
returned; and each of the two entry points is called at most once. -/
theorem main_forwards (argc : Int) (argv : List String) (env : Env) (stdin : List Char) :
    (∀ fn arg, Event.Gateway_CreateFromJson fn arg ∈ (main argc argv env stdin).trace →
        argc = 2
        ∧ fn = env.GetProcAddress (env.LoadLibrary "gateway.dll") "Gateway_CreateFromJson"
        ∧ arg = argv.getD 1 ""
        ∧ (∀ path, argv[1]? = some path → arg = path))
    ∧ (∀ fn arg, Event.Gateway_Destroy fn arg ∈ (main argc argv env stdin).trace →
        fn = env.GetProcAddress (env.LoadLibrary "gateway.dll") "Gateway_Destroy"
        ∧ arg = env.invoke
                  (env.GetProcAddress (env.LoadLibrary "gateway.dll") "Gateway_CreateFromJson")
                  (argv.getD 1 "")
        ∧ arg ≠ 0
        ∧ Event.Gateway_CreateFromJson
            (env.GetProcAddress (env.LoadLibrary "gateway.dll") "Gateway_CreateFromJson")
            (argv.getD 1 "") ∈ (main argc argv env stdin).trace)
    ∧ (main argc argv env stdin).trace.countP Event.isCreate ≤ 1
    ∧ (main argc argv env stdin).trace.countP Event.isDestroy ≤ 1 := by
  have hget : ∀ path, argv[1]? = some path → argv.getD 1 "" = path := by
    intro path hp
    simp [hp]
  by_cases hargc : argc = 2
  · subst hargc
    by_cases hload : env.LoadLibrary "gateway.dll" = 0
    · rw [main_load_failed argv env stdin hload]
      simp [Event.isCreate, Event.isDestroy]
    · by_cases hsym :
          env.GetProcAddress (env.LoadLibrary "gateway.dll") "Gateway_CreateFromJson" = 0
      · rw [main_resolve_failed argv env stdin hload hsym]
        simp [Event.isCreate, Event.isDestroy]
      · by_cases hnull :
            env.invoke (env.GetProcAddress (env.LoadLibrary "gateway.dll") "Gateway_CreateFromJson")
              (argv.getD 1 "") = 0
        · rw [main_create_failed argv env stdin hload hsym hnull]
          refine ⟨?_, by simp, by simp [Event.isCreate, List.countP_cons],
            by simp [Event.isDestroy, List.countP_cons]⟩
          intro fn arg hmem
          simp only [List.mem_cons, List.mem_singleton, Event.Gateway_CreateFromJson.injEq,
            reduceCtorEq, false_or, or_false, List.not_mem_nil] at hmem
          obtain ⟨hfn, harg⟩ := hmem
          exact ⟨rfl, hfn, harg, fun path hp => harg.trans (hget path hp)⟩
        · by_cases hdestroy :
              env.GetProcAddress (env.LoadLibrary "gateway.dll") "Gateway_Destroy" = 0
          · rw [main_created_no_destroy argv env stdin hload hsym hnull hdestroy]
            refine ⟨?_, by simp, by simp [Event.isCreate, List.countP_cons],
              by simp [Event.isDestroy, List.countP_cons]⟩
            intro fn arg hmem
            simp only [List.mem_cons, List.mem_singleton, Event.Gateway_CreateFromJson.injEq,
              reduceCtorEq, false_or, or_false, List.not_mem_nil] at hmem
            obtain ⟨hfn, harg⟩ := hmem
            exact ⟨rfl, hfn, harg, fun path hp => harg.trans (hget path hp)⟩
          · rw [main_created_destroy argv env stdin hload hsym hnull hdestroy]
            refine ⟨?_, ?_, by simp [Event.isCreate, List.countP_cons],
              by simp [Event.isDestroy, List.countP_cons]⟩
            · intro fn arg hmem
              simp only [List.mem_cons, List.mem_singleton, Event.Gateway_CreateFromJson.injEq,
                reduceCtorEq, false_or, or_false, List.not_mem_nil] at hmem
              obtain ⟨hfn, harg⟩ := hmem
              exact ⟨rfl, hfn, harg, fun path hp => harg.trans (hget path hp)⟩
            · intro fn arg hmem
              simp only [List.mem_cons, List.mem_singleton, Event.Gateway_Destroy.injEq,
                reduceCtorEq, false_or, or_false, List.not_mem_nil] at hmem
              obtain ⟨hfn, harg⟩ := hmem
              refine ⟨hfn, harg, ?_, by simp⟩
              rw [harg]
              exact hnull
  · rw [main_usage argc argv env stdin hargc]
    simp [Event.isCreate, Event.isDestroy]

/-- C8, on a stub library with both entry points: the creation call receives
`argv[1]` and the destroy call receives the handle 42 that creation returned. -/
theorem main_forwards_witness :
    ("gw.json" = ["dotnet_binding_sample", "gw.json"].getD 1 "")
    ∧ (42 = (stubEnv 7 11 13 42 0).invoke
              ((stubEnv 7 11 13 42 0).GetProcAddress
                ((stubEnv 7 11 13 42 0).LoadLibrary "gateway.dll") "Gateway_CreateFromJson")
              (["dotnet_binding_sample", "gw.json"].getD 1 "")) :=
  ⟨((main_forwards 2 ["dotnet_binding_sample", "gw.json"] (stubEnv 7 11 13 42 0) ['q']).1
      11 "gw.json" (by decide)).2.2.1,
   ((main_forwards 2 ["dotnet_binding_sample", "gw.json"] (stubEnv 7 11 13 42 0) ['q']).2.1
      13 42 (by decide)).2.1⟩

/-! ## The shutdown trigger -/

/-- C9 as stated fails: on the input `ab`, newline, `c` the successful run
reaches the destroy call having consumed only `a`, so that `b`, newline, `c`
are left where consuming one whole line would leave `c`; and at end of input,
where there is no line at all, the run reaches the destroy call as well. -/
theorem main_does_not_consume_a_line :
    (main 2 ["dotnet_binding_sample", "gw.json"] (stubEnv 7 11 13 42 0)
        ['a', 'b', newline, 'c']).stdin = ['b', newline, 'c']
    ∧ dropLine ['a', 'b', newline, 'c'] = ['c']
    ∧ (main 2 ["dotnet_binding_sample", "gw.json"] (stubEnv 7 11 13 42 0)
        ['a', 'b', newline, 'c']).stdin ≠ dropLine ['a', 'b', newline, 'c']
    ∧ Event.Gateway_Destroy 13 42 ∈
        (main 2 ["dotnet_binding_sample", "gw.json"] (stubEnv 7 11 13 42 0)
          ['a', 'b', newline, 'c']).trace
    ∧ Event.Gateway_Destroy 13 42 ∈
        (main 2 ["dotnet_binding_sample", "gw.json"] (stubEnv 7 11 13 42 0) []).trace := by
  decide

/-- C9, amended: after a successful creation `main` calls `getchar` exactly
once, immediately before it asks for the `Gateway_Destroy` symbol (and then
calls it, when it resolves); for every content of standard input that call
consumes the first character, whatever it is, and nothing more, and it consumes
nothing at end of input. -/
theorem main_consumes_one_char (argc : Int) (argv : List String) (env : Env)
    (stdin : List Char)
    (hargc : argc = 2)
    (hload : env.LoadLibrary "gateway.dll" ≠ 0)
    (hsym : env.GetProcAddress (env.LoadLibrary "gateway.dll") "Gateway_CreateFromJson" ≠ 0)
    (hcreated : env.invoke (env.GetProcAddress (env.LoadLibrary "gateway.dll") "Gateway_CreateFromJson")
              (argv.getD 1 "") ≠ 0) :
    (main argc argv env stdin).stdin = stdin.tail
    ∧ (∀ c rest, stdin = c :: rest → (main argc argv env stdin).stdin = rest)
    ∧ (stdin = [] → (main argc argv env stdin).stdin = [])
    ∧ (main argc argv env stdin).trace.count Event.getchar = 1
    ∧ [Event.getchar, Event.GetProcAddress (env.LoadLibrary "gateway.dll") "Gateway_Destroy"]
        <:+: (main argc argv env stdin).trace
    ∧ (∀ fn arg, Event.Gateway_Destroy fn arg ∈ (main argc argv env stdin).trace →
        [Event.getchar, Event.GetProcAddress (env.LoadLibrary "gateway.dll") "Gateway_Destroy",
          Event.Gateway_Destroy fn arg] <:+: (main argc argv env stdin).trace) := by
  subst hargc
  by_cases hdestroy : env.GetProcAddress (env.LoadLibrary "gateway.dll") "Gateway_Destroy" = 0
  · rw [main_created_no_destroy argv env stdin hload hsym hcreated hdestroy]
    refine ⟨getchar_rest stdin, ?_, ?_, by simp [List.count_cons], ?_, by simp⟩
    · intro c rest hs
      subst hs
      rfl
    · intro hs
      subst hs
      rfl
    · exact ⟨[_, _, _, _, _], [_], rfl⟩
  · rw [main_created_destroy argv env stdin hload hsym hcreated hdestroy]
    refine ⟨getchar_rest stdin, ?_, ?_, by simp [List.count_cons], ?_, ?_⟩
    · intro c rest hs
      subst hs
      rfl
    · intro hs
      subst hs
      rfl
    · exact ⟨[_, _, _, _, _], [_, _], rfl⟩
    · intro fn arg hmem
      simp only [List.mem_cons, List.mem_singleton, Event.Gateway_Destroy.injEq,
        reduceCtorEq, false_or, or_false, List.not_mem_nil] at hmem
      obtain ⟨hfn, harg⟩ := hmem
      subst hfn
      subst harg
      exact ⟨[_, _, _, _, _], [_], rfl⟩

/-- C9 amended, on the input `ab`, newline, `c`: only `a` is consumed. -/
theorem main_consumes_one_char_witness :
    (main 2 ["dotnet_binding_sample", "gw.json"] (stubEnv 7 11 13 42 0)
        ['a', 'b', newline, 'c']).stdin = ['b', newline, 'c'] :=
  (main_consumes_one_char 2 ["dotnet_binding_sample", "gw.json"] (stubEnv 7 11 13 42 0)
    ['a', 'b', newline, 'c'] rfl (by decide) (by decide) (by decide)).1

/-! ## Release of the library -/

/-- C10: `FreeLibrary` occurs in the trace exactly when `main` returns 0; on the
two failure paths after a successful load (creation symbol unresolved, creation
result null) `main` returns 1 with `LoadLibrary` in the trace and no
`FreeLibrary`; and when `FreeLibrary` occurs it occurs once, with the non-null
handle `LoadLibrary` returned, as the last call of the run. -/
theorem main_frees_iff_success (argc : Int) (argv : List String) (env : Env)
    (stdin : List Char) :
    ((∃ h, Event.FreeLibrary h ∈ (main argc argv env stdin).trace) ↔
        (main argc argv env stdin).status = 0)
    ∧ (argc = 2 → env.LoadLibrary "gateway.dll" ≠ 0 →
        (env.GetProcAddress (env.LoadLibrary "gateway.dll") "Gateway_CreateFromJson" = 0
          ∨ env.invoke
              (env.GetProcAddress (env.LoadLibrary "gateway.dll") "Gateway_CreateFromJson")
              (argv.getD 1 "") = 0) →
        (main argc argv env stdin).status = 1
        ∧ Event.LoadLibrary "gateway.dll" ∈ (main argc argv env stdin).trace
        ∧ ∀ h, Event.FreeLibrary h ∉ (main argc argv env stdin).trace)
    ∧ (∀ h, Event.FreeLibrary h ∈ (main argc argv env stdin).trace →
        h = env.LoadLibrary "gateway.dll"
        ∧ h ≠ 0
        ∧ Event.LoadLibrary "gateway.dll" ∈ (main argc argv env stdin).trace
        ∧ (main argc argv env stdin).trace.countP Event.isFreeLibrary = 1
        ∧ (main argc argv env stdin).trace.getLast? = some (Event.FreeLibrary h)) := by
  by_cases hargc : argc = 2
  · subst hargc
    by_cases hload : env.LoadLibrary "gateway.dll" = 0
    · rw [main_load_failed argv env stdin hload]
      simp [hload]
    · by_cases hsym :
          env.GetProcAddress (env.LoadLibrary "gateway.dll") "Gateway_CreateFromJson" = 0
      · rw [main_resolve_failed argv env stdin hload hsym]
        simp
      · by_cases hnull :
            env.invoke (env.GetProcAddress (env.LoadLibrary "gateway.dll") "Gateway_CreateFromJson")
              (argv.getD 1 "") = 0
        · rw [main_create_failed argv env stdin hload hsym hnull]
          simp
        · have hnot :
              ¬ (env.GetProcAddress (env.LoadLibrary "gateway.dll") "Gateway_CreateFromJson" = 0
                ∨ env.invoke
                    (env.GetProcAddress (env.LoadLibrary "gateway.dll") "Gateway_CreateFromJson")
                    (argv.getD 1 "") = 0) := by
            rintro (h | h)
            · exact hsym h
            · exact hnull h
          by_cases hdestroy :
              env.GetProcAddress (env.LoadLibrary "gateway.dll") "Gateway_Destroy" = 0
          · rw [main_created_no_destroy argv env stdin hload hsym hnull hdestroy]
            refine ⟨by simp, fun _ _ h => absurd h hnot, ?_⟩
            intro h hmem
            simp only [List.mem_cons, List.mem_singleton, Event.FreeLibrary.injEq,
              reduceCtorEq, false_or, or_false, List.not_mem_nil] at hmem
            subst hmem
            exact ⟨rfl, hload, by simp, by simp [Event.isFreeLibrary, List.countP_cons], rfl⟩
          · rw [main_created_destroy argv env stdin hload hsym hnull hdestroy]
            refine ⟨by simp, fun _ _ h => absurd h hnot, ?_⟩
            intro h hmem
            simp only [List.mem_cons, List.mem_singleton, Event.FreeLibrary.injEq,
              reduceCtorEq, false_or, or_false, List.not_mem_nil] at hmem
            subst hmem
            exact ⟨rfl, hload, by simp, by simp [Event.isFreeLibrary, List.countP_cons], rfl⟩
  · rw [main_usage argc argv env stdin hargc]
    simp [hargc]

/-- C10, on a stub library whose creation function returns null: the library
was loaded, the status is 1 and `FreeLibrary` is never called. -/
theorem main_frees_iff_success_witness :
    (main 2 ["dotnet_binding_sample", "gw.json"] (stubEnv 7 11 13 0 0) ['q']).status = 1
    ∧ Event.LoadLibrary "gateway.dll" ∈
        (main 2 ["dotnet_binding_sample", "gw.json"] (stubEnv 7 11 13 0 0) ['q']).trace
    ∧ Event.FreeLibrary 7 ∉
        (main 2 ["dotnet_binding_sample", "gw.json"] (stubEnv 7 11 13 0 0) ['q']).trace :=
  have h := (main_frees_iff_success 2 ["dotnet_binding_sample", "gw.json"]
    (stubEnv 7 11 13 0 0) ['q']).2.1 rfl (by decide) (Or.inr (by decide))
  ⟨h.1, h.2.1, h.2.2 7⟩

end Binding
